import Mathlib

/-!
Shallow embedding of `src/moxie/daemon.py` (the moxie job-lifecycle
reconciliation daemon) and proofs about its lifecycle operations.

Modelling conventions:
* Timestamps and intervals are integers (seconds); `datetime.utcnow()`
  becomes an explicit `now : Int` parameter and `scheduled = now + interval`
  is integer addition.
* The container runtime is modelled at its interface boundary for a single
  job name: the runtime either has no unit (`absent`), has one
  (`present c`), or is unreachable (`commFail`, standing for any
  runtime-communication failure that the client does not classify as
  "no such container").  `docker.containers.get` raises `ValueError` for a
  lookup that finds no unit, and other failures surface as other exception
  types; `getc` catches exactly `ValueError`.
* A container's inspect data (`container._container`) is modelled by the
  fields the daemon reads or writes: `Args`, `Image`, `Env`,
  `State.Running`, `State.ExitCode`.  The `State` dict entries may be
  missing, hence `Option`; the code reads them with `.get("Running", False)`
  and `.get("ExitCode", -1)`.
* Database effects run against an external store whose statements can fail
  individually (aiopg connections are autocommit; the daemon opens no
  transaction), so each store-mutating statement takes a boolean saying
  whether it succeeds, and every operation returns the store state reached
  so far together with `Except` for the Python exception flow.  Effects on
  the store persist even when a later statement raises.
* Python exceptions are the `MoxieError` sum: `attrErrorNone a` is the
  `AttributeError` raised by dereferencing attribute `a` on `None`,
  `valueError` a `raise ValueError(...)`, `dockerCommError` a
  non-`ValueError` runtime-client failure, `storeFailure` a failed
  database statement.
-/

/-- One row of the `Job` table, with the columns `daemon.py` reads or
writes: `id`, `name`, `command`, `image`, `interval`, `active`,
`scheduled`. -/
structure JobRow where
  id : Nat
  name : String
  command : String
  image : String
  interval : Int
  active : Bool
  scheduled : Int
  deriving Repr, DecidableEq

/-- One row of the `JobEnv` table: `job_id`, `key`, `value`. -/
structure JobEnvRow where
  job_id : Nat
  key : String
  value : String
  deriving Repr, DecidableEq

/-- One row of the `Run` table as inserted by `reap`: `failed` and
`job_id` (the primary key and creation timestamp are store-generated and
never read by the daemon). -/
structure RunRow where
  failed : Bool
  job_id : Nat
  deriving Repr, DecidableEq

/-- The container inspect data (`container._container`) restricted to the
fields the daemon reads or writes: `Args`, `Image`, `Env`,
`State.Running`, `State.ExitCode`.  `none` models a missing dict key. -/
structure Container where
  args : List String
  image : String
  env : List String
  stateRunning : Option Bool
  stateExitCode : Option Int
  deriving Repr, DecidableEq

/-- The persistence store as seen by one reconciler: the job's row, the
`Run` table, and the `JobEnv` table. -/
structure DBState where
  job : JobRow
  runs : List RunRow
  jobenvs : List JobEnvRow
  deriving Repr, DecidableEq

/-- The container runtime's state for one job name, at the interface
boundary: no unit exists (lookup raises the not-found `ValueError`), a
unit exists, or the runtime cannot be asked (lookup raises a
non-`ValueError` failure). -/
inductive RuntimeState where
  | absent
  | present (c : Container)
  | commFail
  deriving Repr, DecidableEq

/-- Python exceptions distinguished by the daemon's control flow. -/
inductive MoxieError where
  | attrErrorNone (a : String)
  | valueError (msg : String)
  | dockerCommError
  | storeFailure
  deriving Repr, DecidableEq

/-- Runtime side effects performed by the lifecycle operations. -/
inductive RuntimeAction where
  | delete
  | create (cmd : List String) (image : String) (env : List String)
  | launch
  deriving Repr, DecidableEq

/-- Split a character list into maximal space-free words, accumulating the
current word in reverse in `cur`. -/
def splitWords (cs : List Char) (cur : List Char) : List (List Char) :=
  match cs with
  | [] => if cur = [] then [] else [cur.reverse]
  | c :: rest =>
    if c = ' ' then
      if cur = [] then splitWords rest []
      else cur.reverse :: splitWords rest []
    else splitWords rest (c :: cur)

/-- `shlex.split` on the job's `command`.  The daemon's commands are plain
argument vectors, so this models the quoting-free case: split on
whitespace, dropping empty fields. -/
def shlexSplit (s : String) : List String :=
  (splitWords s.data []).map (fun cs => { data := cs })

/-- `getc(job)`: `docker.containers.get(job.name)` with `except ValueError:
return None`.  The not-found lookup is the `ValueError` that gets caught
and becomes `None`; any other runtime-communication failure propagates. -/
def getc : RuntimeState → Except MoxieError (Option Container)
  | RuntimeState.absent => Except.ok none
  | RuntimeState.present c => Except.ok (some c)
  | RuntimeState.commFail => Except.error MoxieError.dockerCommError

/-- The container `docker.containers.create` produces for the daemon's
config dict: `Cmd`/`Args` set to the split command, `Image`, `Env`, not
running, no recorded exit code. -/
def createContainer (cmd : List String) (image : String)
    (env : List String) : Container :=
  { args := cmd
    image := image
    env := env
    stateRunning := some false
    stateExitCode := none }

/-- `reap(job)`: probe the container, fail on `None` (attribute
dereference) or on a running container (`ValueError`), read the exit code
with default `-1`, then run two store statements in sequence on one
autocommit connection: `UPDATE job SET active=false WHERE name=job.name`,
then `INSERT INTO run (failed, job_id)` with `failed = (exit != 0)`.
`updOk`/`insOk` say whether each statement succeeds; a statement that has
run stays persisted even if a later one raises. -/
def reap (job : JobRow) (rs : RuntimeState) (db : DBState)
    (updOk insOk : Bool) : DBState × Except MoxieError Unit :=
  match getc rs with
  | Except.error e => (db, Except.error e)
  | Except.ok none => (db, Except.error (MoxieError.attrErrorNone "_container"))
  | Except.ok (some c) =>
    let running := c.stateRunning.getD false
    if running then
      (db, Except.error (MoxieError.valueError "Asked to reap a bad container"))
    else
      let exit := c.stateExitCode.getD (-1)
      if updOk then
        let db1 :=
          if db.job.name = job.name then
            { db with job := { db.job with active := false } }
          else db
        if insOk then
          ({ db1 with
              runs := db1.runs ++ [{ failed := exit != 0, job_id := job.id }] },
            Except.ok ())
        else (db1, Except.error MoxieError.storeFailure)
      else (db, Except.error MoxieError.storeFailure)

/-- `wait(job)`: probe the container — `None` makes `container.wait()` an
attribute dereference on `None` — then suspend until the runtime reports
the unit exited (modelled by the unit's state becoming
`Running=false, ExitCode=exitCode`), then `reap(job)`.  Returns the
runtime state the reap observed alongside the store outcome. -/
def wait (job : JobRow) (rs : RuntimeState) (db : DBState)
    (exitCode : Option Int) (updOk insOk : Bool) :
    RuntimeState × DBState × Except MoxieError Unit :=
  match getc rs with
  | Except.error e => (rs, db, Except.error e)
  | Except.ok none => (rs, db, Except.error (MoxieError.attrErrorNone "wait"))
  | Except.ok (some c) =>
    let rs1 := RuntimeState.present
      { c with stateRunning := some false, stateExitCode := exitCode }
    let r := reap job rs1 db updOk insOk
    (rs1, r.1, r.2)

/-- `init(job)`: probe the container, split the command, read the job's
`JobEnv` rows and format them as `KEY=VALUE`; if a container exists it must
not be running (`ValueError` otherwise) and is deleted when its `Args` or
`Image` drifted from the job row; if no container remains, create one from
the job's command, image and environment.  Returns the new runtime state,
the runtime actions performed, and the resulting container. -/
def init (job : JobRow) (rs : RuntimeState) (db : DBState) :
    Except MoxieError (RuntimeState × List RuntimeAction × Container) :=
  match getc rs with
  | Except.error e => Except.error e
  | Except.ok copt =>
    let cmd := shlexSplit job.command
    let jobenvs := db.jobenvs.filter (fun x => x.job_id = job.id)
    let env := jobenvs.map (fun x => x.key ++ "=" ++ x.value)
    match copt with
    | some c =>
      if c.stateRunning.getD false = true then
        Except.error (MoxieError.valueError
          ("Container " ++ job.name ++ " still running!"))
      else if c.args ≠ cmd ∨ c.image ≠ job.image then
        let c1 := createContainer cmd job.image env
        Except.ok (RuntimeState.present c1,
          [RuntimeAction.delete, RuntimeAction.create cmd job.image env], c1)
      else
        Except.ok (RuntimeState.present c, [], c)
    | none =>
      let c1 := createContainer cmd job.image env
      Except.ok (RuntimeState.present c1,
        [RuntimeAction.create cmd job.image env], c1)

/-- `start(job)`: probe the container — `None` makes `container.start(...)`
an attribute dereference on `None` — launch it, then in one store statement
`UPDATE job SET active=true, scheduled=now+interval WHERE name=job.name`
(success governed by `schedOk`), then `wait(job)` (whose eventual reap uses
`updOk`/`insOk` and observes exit code `exitCode`).  Start only returns
after the wait, i.e. after the launched execution was reaped. -/
def start (job : JobRow) (rs : RuntimeState) (db : DBState) (now : Int)
    (exitCode : Option Int) (schedOk updOk insOk : Bool) :
    RuntimeState × List RuntimeAction × DBState × Except MoxieError Unit :=
  match getc rs with
  | Except.error e => (rs, [], db, Except.error e)
  | Except.ok none =>
    (rs, [], db, Except.error (MoxieError.attrErrorNone "start"))
  | Except.ok (some c) =>
    let rs1 := RuntimeState.present { c with stateRunning := some true }
    if schedOk then
      let db1 :=
        if db.job.name = job.name then
          { db with job :=
              { db.job with active := true, scheduled := now + job.interval } }
        else db
      let w := wait job rs1 db1 exitCode updOk insOk
      (w.1, [RuntimeAction.launch], w.2.1, w.2.2)
    else (rs1, [RuntimeAction.launch], db, Except.error MoxieError.storeFailure)

/-- The entry dispatch of `up(job)`: read `active` from the job row,
probe the container, derive `running` (`None` when no container, else
`State.get("Running", False)`), and when `active` holds branch on
`running`: `False` → `reap`, `None` → `start`, otherwise `wait`.  When
`active` is false, no corrective action runs.  Returns runtime state,
runtime actions, store state, and the exception outcome. -/
def upEntry (job : JobRow) (rs : RuntimeState) (db : DBState) (now : Int)
    (exitCode : Option Int) (schedOk updOk insOk : Bool) :
    RuntimeState × List RuntimeAction × DBState × Except MoxieError Unit :=
  match getc rs with
  | Except.error e => (rs, [], db, Except.error e)
  | Except.ok copt =>
    let running : Option Bool := copt.map (fun c => c.stateRunning.getD false)
    if job.active then
      match running with
      | some false =>
        let r := reap job rs db updOk insOk
        (rs, [], r.1, r.2)
      | none => start job rs db now exitCode schedOk updOk insOk
      | some true =>
        let w := wait job rs db exitCode updOk insOk
        (w.1, [], w.2.1, w.2.2)
    else (rs, [], db, Except.ok ())

/-- The sleep computation of `up`'s steady-state cycle:
`delta = utcnow() - job.scheduled`, `seconds = -delta.total_seconds()`,
clamped to `0` when negative. -/
def sleepSeconds (now scheduled : Int) : Int :=
  let delta := now - scheduled
  let seconds := -delta
  if seconds < 0 then 0 else seconds

/-- One scheduling step of `up`'s steady-state loop: re-read the job row
(`SELECT ... WHERE name == job.name`, the single row of the store) and
compute the sleep duration from its freshly read `scheduled` column. -/
def upCycleSleep (db : DBState) (now : Int) : Int :=
  sleepSeconds now db.job.scheduled

/-- A sample job row ("nightly", command `true`, image `busybox`, one-hour
interval, recorded as started) used to instantiate the theorems. -/
def nightlyJob : JobRow :=
  { id := 1, name := "nightly", command := "true", image := "busybox",
    interval := 3600, active := true, scheduled := 100 }

/-- A sample store state holding `nightlyJob` and no runs. -/
def nightlyDB : DBState := { job := nightlyJob, runs := [], jobenvs := [] }

/-- A sample container matching `nightlyJob`, exited with code 0. -/
def exitedContainer : Container :=
  { args := ["true"], image := "busybox", env := [],
    stateRunning := some false, stateExitCode := some 0 }

/-- A sample container matching `nightlyJob`, still running. -/
def runningContainer : Container :=
  { args := ["true"], image := "busybox", env := [],
    stateRunning := some true, stateExitCode := none }

/-- A sample container matching `nightlyJob`, exited with code 1. -/
def failedContainer : Container :=
  { args := ["true"], image := "busybox", env := [],
    stateRunning := some false, stateExitCode := some 1 }

/-- A sample container matching `nightlyJob` whose `State` dict carries
neither a `Running` nor an `ExitCode` entry. -/
def noExitCodeContainer : Container :=
  { args := ["true"], image := "busybox", env := [],
    stateRunning := none, stateExitCode := none }

/-- Claim C1 (code bug): when the persisted `active` flag is true and the
probe finds no unit, `up`'s entry logic dispatches to `start`, but `start`
cannot recreate the unit: it dereferences the `None` probe result
(`AttributeError`), performs no runtime action (in particular no create),
leaves the store untouched, and the reconciler dies — contrary to the
spec's "perform Start (recreate and resume supervision) rather than
failing". -/
theorem upEntry_active_absent_start_fails (job : JobRow) (db : DBState)
    (now : Int) (ec : Option Int) (schedOk updOk insOk : Bool)
    (hactive : job.active = true) :
    upEntry job RuntimeState.absent db now ec schedOk updOk insOk =
      (RuntimeState.absent, [], db,
        Except.error (MoxieError.attrErrorNone "start")) := by
  simp [upEntry, start, getc, hactive]

/-- Witness for C1: a concrete active job with no unit present makes the
entry logic fail with the uncaught attribute error instead of recreating
the unit. -/
theorem upEntry_active_absent_start_fails_witness :
    upEntry nightlyJob RuntimeState.absent nightlyDB 200 (some 0) true true
        true =
      (RuntimeState.absent, [], nightlyDB,
        Except.error (MoxieError.attrErrorNone "start")) :=
  upEntry_active_absent_start_fails nightlyJob nightlyDB 200 (some 0) true true
    true rfl

/-- Claim C2, counterexample: `reap`'s two persistence effects are not one
atomic update.  On a concrete active job with an exited unit, when the
store fails after the `active=false` update but before the `Run` insert,
the intermediate state is left behind: `active` has been cleared yet no
`Run` row exists, refuting "either both effects are persisted or
neither is". -/
theorem reap_not_atomic_counterexample :
    (reap nightlyJob (RuntimeState.present exitedContainer) nightlyDB
        true false).1.job.active = false ∧
    (reap nightlyJob (RuntimeState.present exitedContainer) nightlyDB
        true false).1.runs = [] ∧
    nightlyDB.job.active = true ∧
    (reap nightlyJob (RuntimeState.present exitedContainer) nightlyDB
        true false).2 = Except.error MoxieError.storeFailure :=
  ⟨rfl, rfl, rfl, rfl⟩

/-- Claim C2, amended: `reap` issues its two persistence effects as two
separate autocommit statements, update first, insert second.  A fully
successful reap persists both; a store failure at the update persists
neither; a store failure at the insert persists `active=false` without a
`Run` row. -/
theorem reap_two_statement_persistence (job : JobRow) (c : Container)
    (db : DBState) (insOk : Bool) (hname : db.job.name = job.name)
    (hrun : c.stateRunning.getD false = false) :
    reap job (RuntimeState.present c) db true true =
      ({ job := { db.job with active := false },
         runs := db.runs ++
           [{ failed := c.stateExitCode.getD (-1) != 0, job_id := job.id }],
         jobenvs := db.jobenvs },
       Except.ok ()) ∧
    reap job (RuntimeState.present c) db false insOk =
      (db, Except.error MoxieError.storeFailure) ∧
    reap job (RuntimeState.present c) db true false =
      ({ job := { db.job with active := false },
         runs := db.runs,
         jobenvs := db.jobenvs },
       Except.error MoxieError.storeFailure) := by
  simp [reap, getc, hrun, hname]

/-- Witness for the amended C2: on the concrete job, a fully successful
reap persists both effects, and an update-statement failure persists
neither. -/
theorem reap_two_statement_persistence_witness :
    reap nightlyJob (RuntimeState.present exitedContainer) nightlyDB true
        true =
      ({ job := { nightlyDB.job with active := false },
         runs := nightlyDB.runs ++
           [{ failed := exitedContainer.stateExitCode.getD (-1) != 0,
              job_id := nightlyJob.id }],
         jobenvs := nightlyDB.jobenvs },
       Except.ok ()) ∧
    reap nightlyJob (RuntimeState.present exitedContainer) nightlyDB false
        true =
      (nightlyDB, Except.error MoxieError.storeFailure) :=
  ⟨(reap_two_statement_persistence nightlyJob exitedContainer nightlyDB true
      rfl rfl).1,
   (reap_two_statement_persistence nightlyJob exitedContainer nightlyDB true
      rfl rfl).2.1⟩

/-- Claim C3: reaping a unit whose probed state says `Running=true` raises
the fatal `ValueError` before any persistence effect — the store is
returned unchanged (no `Run` inserted, `active` untouched) for every
store-failure schedule. -/
theorem reap_running_is_fatal_and_pure (job : JobRow) (c : Container)
    (db : DBState) (updOk insOk : Bool) (h : c.stateRunning = some true) :
    reap job (RuntimeState.present c) db updOk insOk =
      (db, Except.error (MoxieError.valueError "Asked to reap a bad container")) := by
  simp [reap, getc, h]

/-- Witness for C3: the concrete running container is rejected fatally and
the concrete store is unchanged. -/
theorem reap_running_is_fatal_and_pure_witness :
    reap nightlyJob (RuntimeState.present runningContainer) nightlyDB true
        true =
      (nightlyDB,
        Except.error (MoxieError.valueError "Asked to reap a bad container")) :=
  reap_running_is_fatal_and_pure nightlyJob runningContainer nightlyDB true
    true rfl

/-- Claim C4: `init` is idempotent.  Whenever a first `init` succeeds —
from any runtime state — running `init` again with unchanged job row and
`JobEnv` rows performs no delete and no create (empty action list) and
returns the same runtime state and a container with identical
configuration. -/
theorem init_idempotent (job : JobRow) (db : DBState) (rs rs' : RuntimeState)
    (as : List RuntimeAction) (c : Container)
    (h : init job rs db = Except.ok (rs', as, c)) :
    init job rs' db = Except.ok (rs', [], c) := by
  have hstable : ∀ cc : Container,
      cc.args = shlexSplit job.command → cc.image = job.image →
      cc.stateRunning.getD false = false →
      init job (RuntimeState.present cc) db =
        Except.ok (RuntimeState.present cc, [], cc) := by
    intro cc h1 h2 h3
    simp [init, getc, h1, h2, h3]
  cases rs with
  | commFail => simp [init, getc] at h
  | absent =>
    simp only [init, getc] at h
    obtain ⟨rfl, -, rfl⟩ := by simpa using h
    exact hstable _ rfl rfl rfl
  | present c0 =>
    by_cases hrun : c0.stateRunning.getD false = true
    · simp [init, getc, hrun] at h
    · rw [Bool.not_eq_true] at hrun
      by_cases hdrift : c0.args ≠ shlexSplit job.command ∨ c0.image ≠ job.image
      · simp only [init, getc, hrun, hdrift] at h
        obtain ⟨rfl, -, rfl⟩ := by simpa [hdrift] using h
        exact hstable _ rfl rfl rfl
      · simp only [init, getc, hrun, hdrift] at h
        obtain ⟨rfl, -, rfl⟩ := by simpa [hdrift] using h
        push_neg at hdrift
        exact hstable _ hdrift.1 hdrift.2 hrun

/-- Witness for C4: after the first `init` created the "nightly" unit, a
second `init` returns the identical container and performs no runtime
action. -/
theorem init_idempotent_witness :
    init nightlyJob
        (RuntimeState.present (createContainer ["true"] "busybox" []))
        nightlyDB =
      Except.ok
        (RuntimeState.present (createContainer ["true"] "busybox" []), [],
          createContainer ["true"] "busybox" []) :=
  init_idempotent nightlyJob nightlyDB RuntimeState.absent
    (RuntimeState.present (createContainer ["true"] "busybox" []))
    [RuntimeAction.create ["true"] "busybox" []]
    (createContainer ["true"] "busybox" []) rfl

/-- Claim C5: the probe returns `None` exactly when the runtime's lookup
failure means the unit does not exist; a runtime-communication failure
propagates to the caller and is never mapped to `None`; an existing unit
is returned as found. -/
theorem getc_absent_exactly_not_found :
    (∀ rs : RuntimeState, getc rs = Except.ok none ↔ rs = RuntimeState.absent) ∧
    getc RuntimeState.commFail = Except.error MoxieError.dockerCommError ∧
    (∀ c : Container, getc (RuntimeState.present c) = Except.ok (some c)) := by
  refine ⟨fun rs => ?_, rfl, fun c => rfl⟩
  cases rs <;> simp [getc]

/-- Claim C6: `start` on an existing unit launches it, persists
`active=true` and `scheduled = now + interval` in one statement, and then
hands the updated store to `wait`, only returning after the wait; a fully
successful start therefore comes back with `scheduled` advanced to
`now + interval` and exactly one new `Run` row appended by the reap inside
the wait. -/
theorem start_launch_persist_then_wait (job : JobRow) (c : Container)
    (db : DBState) (now : Int) (ec : Option Int) (updOk insOk : Bool)
    (hname : db.job.name = job.name) :
    (start job (RuntimeState.present c) db now ec true updOk insOk =
      (let db1 : DBState :=
        { job :=
            { db.job with active := true, scheduled := now + job.interval },
          runs := db.runs, jobenvs := db.jobenvs }
       let w := wait job
         (RuntimeState.present { c with stateRunning := some true }) db1 ec
         updOk insOk
       (w.1, [RuntimeAction.launch], w.2.1, w.2.2))) ∧
    (start job (RuntimeState.present c) db now ec true true
        true).2.2.1.job.scheduled = now + job.interval ∧
    ((start job (RuntimeState.present c) db now ec true true
        true).2.2.1.runs).length = db.runs.length + 1 ∧
    (start job (RuntimeState.present c) db now ec true true true).2.2.2 =
      Except.ok () := by
  refine ⟨?_, ?_, ?_, ?_⟩
  · simp [start, getc, hname]
  · simp [start, wait, reap, getc, hname]
  · simp [start, wait, reap, getc, hname]
  · simp [start, wait, reap, getc, hname]

/-- Witness for C6: a concrete successful start leaves `scheduled`
advanced by the interval and exactly one new `Run` row. -/
theorem start_launch_persist_then_wait_witness :
    (start nightlyJob
        (RuntimeState.present (createContainer ["true"] "busybox" []))
        nightlyDB 200 (some 0) true true true).2.2.1.job.scheduled =
      200 + nightlyJob.interval ∧
    ((start nightlyJob
        (RuntimeState.present (createContainer ["true"] "busybox" []))
        nightlyDB 200 (some 0) true true true).2.2.1.runs).length =
      nightlyDB.runs.length + 1 :=
  ⟨(start_launch_persist_then_wait nightlyJob
      (createContainer ["true"] "busybox" []) nightlyDB 200 (some 0) true true
      rfl).2.1,
   (start_launch_persist_then_wait nightlyJob
      (createContainer ["true"] "busybox" []) nightlyDB 200 (some 0) true true
      rfl).2.2.1⟩

/-- Claim C7: the steady-state sleep duration is computed from the
re-read `scheduled` column as `max(0, scheduled - now)`: it equals
`scheduled - now` when that is positive, is exactly zero otherwise, and is
never negative. -/
theorem upCycleSleep_clamped (db : DBState) (now : Int) :
    upCycleSleep db now = max 0 (db.job.scheduled - now) ∧
    upCycleSleep db now =
      (if now < db.job.scheduled then db.job.scheduled - now else 0) ∧
    0 ≤ upCycleSleep db now := by
  simp only [upCycleSleep, sleepSeconds, max_def]
  refine ⟨?_, ?_, ?_⟩
  · split <;> split <;> omega
  · split <;> split <;> omega
  · split <;> omega

/-- Claim C9: `reap` and `wait` dereference the probe result with no null
check: on an absent unit each raises the uncontrolled attribute error on
`None` (and performs no store effect), while on an existing unit neither
operation can ever produce that attribute error — the null branch is
unreachable under their precondition. -/
theorem reap_wait_null_deref (job : JobRow) (db : DBState) (ec : Option Int)
    (updOk insOk : Bool) :
    reap job RuntimeState.absent db updOk insOk =
      (db, Except.error (MoxieError.attrErrorNone "_container")) ∧
    wait job RuntimeState.absent db ec updOk insOk =
      (RuntimeState.absent, db, Except.error (MoxieError.attrErrorNone "wait")) ∧
    (∀ (c : Container) (a : String),
      (reap job (RuntimeState.present c) db updOk insOk).2 ≠
        Except.error (MoxieError.attrErrorNone a)) ∧
    (∀ (c : Container) (a : String),
      (wait job (RuntimeState.present c) db ec updOk insOk).2.2 ≠
        Except.error (MoxieError.attrErrorNone a)) := by
  have hr : ∀ (c : Container) (a : String),
      (reap job (RuntimeState.present c) db updOk insOk).2 ≠
        Except.error (MoxieError.attrErrorNone a) := by
    intro c a
    cases hrun : c.stateRunning.getD false <;>
      cases updOk <;> cases insOk <;>
        by_cases hname : db.job.name = job.name <;>
          simp [reap, getc, hrun, hname]
  refine ⟨rfl, rfl, hr, fun c a => ?_⟩
  simpa [wait, getc] using hr _ a

/-- Claim C8: the `Run` row inserted by a successful reap of a unit that
exited with code `e` has `failed = (e != 0)`: false for exit code 0 and
true for every nonzero code. -/
theorem reap_failed_iff_nonzero_exit (job : JobRow) (c : Container)
    (db : DBState) (e : Int) (hrun : c.stateRunning.getD false = false)
    (hexit : c.stateExitCode = some e) :
    (reap job (RuntimeState.present c) db true true).1.runs =
      db.runs ++ [{ failed := decide (e ≠ 0), job_id := job.id }] ∧
    (reap job (RuntimeState.present c) db true true).2 = Except.ok () := by
  by_cases hname : db.job.name = job.name <;>
    by_cases he : e = 0 <;>
      simp [reap, getc, hrun, hexit, hname, he]

/-- Witness for C8: reaping the concrete unit that exited with code 0
records `failed=false`, and reaping the one that exited with code 1
records `failed=true`. -/
theorem reap_failed_iff_nonzero_exit_witness :
    (reap nightlyJob (RuntimeState.present exitedContainer) nightlyDB true
        true).1.runs =
      nightlyDB.runs ++
        [{ failed := decide ((0 : Int) ≠ 0), job_id := nightlyJob.id }] ∧
    (reap nightlyJob (RuntimeState.present failedContainer) nightlyDB true
        true).1.runs =
      nightlyDB.runs ++
        [{ failed := decide ((1 : Int) ≠ 0), job_id := nightlyJob.id }] :=
  ⟨(reap_failed_iff_nonzero_exit nightlyJob exitedContainer nightlyDB 0 rfl
      rfl).1,
   (reap_failed_iff_nonzero_exit nightlyJob failedContainer nightlyDB 1 rfl
      rfl).1⟩

/-- Claim C10: when the probed container state carries no `ExitCode`
entry, `reap` defaults the exit code to `-1` and records the `Run` with
`failed=true` — a missing exit code is accounted as a failed execution. -/
theorem reap_missing_exitcode_counts_failed (job : JobRow) (c : Container)
    (db : DBState) (hrun : c.stateRunning.getD false = false)
    (hexit : c.stateExitCode = none) :
    (reap job (RuntimeState.present c) db true true).1.runs =
      db.runs ++ [{ failed := true, job_id := job.id }] ∧
    (reap job (RuntimeState.present c) db true true).2 = Except.ok () := by
  by_cases hname : db.job.name = job.name <;>
    simp [reap, getc, hrun, hexit, hname]

/-- Witness for C10: reaping the concrete container whose `State` dict has
no `ExitCode` entry records a failed run. -/
theorem reap_missing_exitcode_counts_failed_witness :
    (reap nightlyJob (RuntimeState.present noExitCodeContainer) nightlyDB true
        true).1.runs =
      nightlyDB.runs ++ [{ failed := true, job_id := nightlyJob.id }] :=
  (reap_missing_exitcode_counts_failed nightlyJob noExitCodeContainer
    nightlyDB rfl rfl).1

/-- Witness for C5: the not-found lookup maps to `None` and the
communication failure propagates as an error. -/
theorem getc_absent_exactly_not_found_witness :
    getc RuntimeState.absent = Except.ok none ∧
    getc RuntimeState.commFail = Except.error MoxieError.dockerCommError :=
  ⟨(getc_absent_exactly_not_found.1 RuntimeState.absent).mpr rfl,
   getc_absent_exactly_not_found.2.1⟩

/-- Witness for C7: with `scheduled = 100`, waking at 40 sleeps 60 and
waking at 160 sleeps 0. -/
theorem upCycleSleep_clamped_witness :
    upCycleSleep nightlyDB 40 = 60 ∧ upCycleSleep nightlyDB 160 = 0 := by
  have h1 := (upCycleSleep_clamped nightlyDB 40).2.1
  have h2 := (upCycleSleep_clamped nightlyDB 160).2.1
  norm_num [nightlyDB, nightlyJob] at h1 h2
  exact ⟨h1, h2⟩

/-- Witness for C9: on the concrete job with no unit, both `reap` and
`wait` raise the attribute error on `None` and leave the store unchanged. -/
theorem reap_wait_null_deref_witness :
    reap nightlyJob RuntimeState.absent nightlyDB true true =
      (nightlyDB, Except.error (MoxieError.attrErrorNone "_container")) ∧
    wait nightlyJob RuntimeState.absent nightlyDB (some 0) true true =
      (RuntimeState.absent, nightlyDB,
        Except.error (MoxieError.attrErrorNone "wait")) :=
  ⟨(reap_wait_null_deref nightlyJob nightlyDB (some 0) true true).1,
   (reap_wait_null_deref nightlyJob nightlyDB (some 0) true true).2.1⟩
